import Mathlib

/-!
Verification development for the liturgical-calendar core
(`liturgical_calendar/funcs.py`, `core/season_calculator.py`,
`core/readings_manager.py`, `liturgical.py`,
`services/feast_service.py`).

The Python sources are shallowly embedded as executable Lean
definitions.  Python integers become `Int`; Python `//` and `%` (floor
division and modulus, always used here with positive divisors, where
floor and Euclidean conventions agree) become `Int.ediv` (`/`) and
`Int.emod` (`%`); Python `dict` records with optional keys become a
structure with `Option` fields; functions that can raise become
`Except String`.

A Python `datetime.date` value is represented with both of its views
precomputed: its components and its proleptic-Gregorian ordinal
(CPython's `date.toordinal`, shifted so that 0001-01-01 is day 0, as
`funcs.date_to_days` does).  CPython compares `date` values by
ordinal, computes `weekday()`/`isoweekday()` from the ordinal, and
converts between the views with the standard civil-calendar algorithm;
the constructors below mirror exactly that.

The repository's data package `liturgical_calendar/data/*` (feast
tables and readings tables) is not under `src/`; following the spec,
those tables are treated as read-only inputs and the embedding is
parametrised over them (`Tables`), with a concrete instance
(`modelTables`) modelled from the spec's words and from the shapes the
repository's own unit tests pin down.
-/

namespace LitCal

/-- Gregorian leap-year test, as used by `datetime.date`. -/
def isLeap (y : Int) : Bool :=
  y % 4 == 0 && (y % 100 != 0 || y % 400 == 0)

/-- Cumulative days before the first of each month in a non-leap year
(CPython's `_DAYS_BEFORE_MONTH`). -/
def daysBeforeMonth (m : Int) : Int :=
  if m = 1 then 0 else if m = 2 then 31 else if m = 3 then 59
  else if m = 4 then 90 else if m = 5 then 120 else if m = 6 then 151
  else if m = 7 then 181 else if m = 8 then 212 else if m = 9 then 243
  else if m = 10 then 273 else if m = 11 then 304 else if m = 12 then 334
  else 0

/-- Days in each month of a non-leap year (CPython's `_DAYS_IN_MONTH`). -/
def daysInMonth (m : Int) : Int :=
  if m = 2 then 28
  else if m = 4 ∨ m = 6 ∨ m = 9 ∨ m = 11 then 30
  else 31

/-- Number of days in month `m` of year `y`, leap-aware. -/
def daysInMonthOf (y m : Int) : Int :=
  daysInMonth m + (if m = 2 ∧ isLeap y then 1 else 0)

/-- Validity of an (International-era) Gregorian date, year 1 onward. -/
def validDate (y m d : Int) : Prop :=
  1 ≤ y ∧ 1 ≤ m ∧ m ≤ 12 ∧ 1 ≤ d ∧ d ≤ daysInMonthOf y m

instance (y m d : Int) : Decidable (validDate y m d) := by
  unfold validDate; infer_instance

/-- Embedding of `funcs.date_to_days`: days since 1st January, 1 AD
(i.e. CPython `date.toordinal() - 1`, computed by the standard civil
formula the CPython implementation realises). -/
def date_to_days (year month day : Int) : Int :=
  365 * (year - 1) + (year - 1) / 4 - (year - 1) / 100 + (year - 1) / 400
    + daysBeforeMonth month
    + (if month > 2 ∧ isLeap year then 1 else 0)
    + day - 1

/-- Embedding of `funcs.add_delta_days`: convert days since
1st January, 1 AD back to (year, month, day).  This mirrors CPython's
`_ord2ymd` (400/100/4/1-year cycle decomposition with the end-of-cycle
December-31 special case and a guess-and-correct month step). -/
def fromDaysTriple (n : Int) : Int × Int × Int :=
  let n400 := n / 146097
  let r1 := n % 146097
  let n100 := r1 / 36524
  let r2 := r1 % 36524
  let n4 := r2 / 1461
  let r3 := r2 % 1461
  let n1 := r3 / 365
  let r4 := r3 % 365
  let year := n400 * 400 + n100 * 100 + n4 * 4 + n1 + 1
  if n1 = 4 ∨ n100 = 4 then
    (year - 1, 12, 31)
  else
    let leap := n1 = 3 ∧ (n4 ≠ 24 ∨ n100 = 3)
    let guess := (r4 + 50) / 32
    let preceding := daysBeforeMonth guess + (if guess > 2 ∧ leap then 1 else 0)
    let month := if preceding > r4 then guess - 1 else guess
    let preceding2 :=
      if preceding > r4 then
        preceding - (daysInMonth (guess - 1) + (if guess - 1 = 2 ∧ leap then 1 else 0))
      else preceding
    (year, month, r4 - preceding2 + 1)

/-- A CPython `datetime.date` value: components plus ordinal (see the
file header; CPython keeps the components and derives the ordinal, and
both views agree on every constructed value). -/
structure PyDate where
  y : Int
  m : Int
  d : Int
  days : Int
deriving Repr, DecidableEq

/-- `datetime.date(y, m, d)`. -/
def PyDate.ofYMD (y m d : Int) : PyDate :=
  ⟨y, m, d, date_to_days y m d⟩

/-- The date whose ordinal (days since 0001-01-01) is `n`:
`date(*add_delta_days(n))` in the source. -/
def PyDate.ofDays (n : Int) : PyDate :=
  let t := fromDaysTriple n
  ⟨t.1, t.2.1, t.2.2, n⟩

/-- Embedding of `funcs.day_of_week`: ISO weekday rewritten so that
Sunday is 0.  `isoweekday()` of the date with ordinal `o` is
`(o - 1) % 7 + 1`; with `days = o - 1` that is `days % 7 + 1`. -/
def day_of_week (year month day : Int) : Int :=
  let days := date_to_days year month day
  let weekday := days % 7 + 1
  if weekday = 7 then 0 else weekday

/-- Embedding of `funcs.get_advent_sunday`: days before Christmas that
Advent Sunday falls (always negative). -/
def get_advent_sunday (year : Int) : Int :=
  -(day_of_week year 12 25 + 3 * 7)

/-- Modelled from the spec: `funcs.get_easter` delegates to
`dateutil.easter` (third-party, not under `src/`); the spec (§4.1)
fixes it as the standard Meeus/Gregorian ("Butcher") Easter algorithm
with no tunable parameters.  Returns (month, day). -/
def get_easter (year : Int) : Int × Int :=
  let a := year % 19
  let b := year / 100
  let c := year % 100
  let d := b / 4
  let e := b % 4
  let f := (b + 8) / 25
  let g := (b - f + 1) / 3
  let h := (19 * a + b - d - g + 15) % 30
  let i := c / 4
  let k := c % 4
  let l := (32 + 2 * e + 2 * i - h - k) % 7
  let m := (a + 11 * h + 22 * l) / 451
  let month := (h + l - 7 * m + 114) / 31
  let day := (h + l - 7 * m + 114) % 31 + 1
  (month, day)

/-- Embedding of `funcs.colour_code`: colour name to hex code
(`dict.get`, so unknown names give `none`). -/
def colour_code (colour : String) : Option String :=
  if colour = "white" then some "#ffffff"
  else if colour = "red" then some "#ce0002"
  else if colour = "rose" then some "#eb597a"
  else if colour = "purple" then some "#664fa6"
  else if colour = "green" then some "#279942"
  else if colour = "not given" then some "#000000"
  else none

/-- Embedding of `funcs.get_week_number`: week number of the year with
weeks starting on Sunday.  `date.weekday()` (Monday = 0) of the date
with ordinal `o` is `(o - 1) % 7`, i.e. `days % 7`. -/
def get_week_number (given : PyDate) : Int :=
  let startOfYear := PyDate.ofYMD given.y 1 1
  let startWeekday := startOfYear.days % 7
  let start :=
    if startWeekday ≠ 6 then startOfYear.days + (6 - startWeekday)
    else startOfYear.days
  (given.days - start) / 7 + 1

/-- Embedding of `funcs.render_week_name`: render a week name with or
without number.  The `weekno` argument arrives as Python `int` or
`None`; the guard `if weekno and weekno > 0` is truthiness (`None` and
`0` falsy).  `season.removeprefix('Pre-')` maps the two possible
inputs "Pre-Lent" / "Pre-Advent" to "Lent" / "Advent". -/
def render_week_name (season : String) (weekno : Option Int) : String × String :=
  match weekno with
  | some w =>
    if w > 0 then
      let weekname :=
        if season = "Ordinary Time" ∨ season = "Trinity" then "Proper" else season
      let week := weekname ++ " " ++ toString w
      if season = "Pre-Lent" ∨ season = "Pre-Advent" then
        let base := if season = "Pre-Lent" then "Lent" else "Advent"
        (toString w ++ " before " ++ base, "Ordinary Time")
      else
        (week, season)
    else (season, season)
  | none => (season, season)

/-! ### `core/season_calculator.py` -/

/-- Embedding of `SeasonCalculator.determine_season`: the ordered
first-match-wins chain of range checks (source lines 26-75). -/
def determine_season (f : PyDate) : String :=
  let year := f.y
  let days := date_to_days f.y f.m f.d
  let em := (get_easter year).1
  let ed := (get_easter year).2
  let easterday := date_to_days year em ed
  let christmasday :=
    if f.m ≤ 2 then date_to_days (year - 1) 12 25 else date_to_days year 12 25
  let advent_sunday := get_advent_sunday year
  let easter_point := days - easterday
  let christmas_point := days - christmasday
  if easter_point ≥ -62 ∧ easter_point ≤ -47 then "Pre-Lent"
  else if christmas_point ≥ advent_sunday ∧ christmas_point ≤ -1 then "Advent"
  else if christmas_point ≥ 0 ∧ christmas_point ≤ 11 then "Christmas"
  else if christmas_point ≥ 12 ∧ christmas_point < 40 then "Epiphany"
  else if easter_point ≤ -62 then "Ordinary Time"
  else if easter_point > -47 ∧ easter_point < -7 then "Lent"
  else if easter_point ≥ -7 ∧ easter_point < 0 then "Holy Week"
  else if easter_point ≥ 0 ∧ easter_point < 49 then "Easter"
  else if easter_point ≥ 49 ∧ easter_point < 56 then "Pentecost"
  else
    let advent_sunday_abs := date_to_days year 12 25 + advent_sunday
    let weeks_until_advent := (advent_sunday_abs - days) / 7
    let dayofweek := day_of_week f.y f.m f.d
    if dayofweek = 0 ∧ 0 < weeks_until_advent ∧ weeks_until_advent ≤ 4 then
      "Pre-Advent"
    else "Trinity"

/-- The exception that CPython raises at each of the seven
`render_week_name(..., ..., sunday_easter_point)` call sites of
`SeasonCalculator.week_info` (source lines 120, 124, 131, 135, 141,
148 and 178): `funcs.render_week_name` (funcs.py line 165) binds
exactly two parameters, so the three-positional-argument calls fail
before the callee runs. -/
def renderArityError : String :=
  "TypeError: render_week_name() takes 2 positional arguments but 3 were given"

/-- The per-season week-name / weekday-reading-key dispatch inside
`SeasonCalculator.week_info` (source lines 118-182).  Arguments are
exactly the quantities the source has in scope there; `days` (the
queried date's own day count) is read only by the Pre-Advent branch.
Seven of the eleven season branches call the two-parameter
`funcs.render_week_name` with three positional arguments and
therefore raise `TypeError` (the branch's preceding week-number
arithmetic is pure and unobservable); only the Holy Week, Pentecost,
Trinity and Pre-Advent branches (and the dead final `else`) return a
value. -/
def weekInfoBranch (sunday_season : String) (sunday_easter_point : Int)
    (sunday_christmas_point : Int) (sunday_advent_sunday : Int)
    (week_start_sunday_date : PyDate) (days : Int) (year : Int)
    (advent_sunday : Int) : Except String (String × Option String) :=
  if sunday_season = "Pre-Lent" then
    .error renderArityError
  else if sunday_season = "Advent" then
    .error renderArityError
  else if sunday_season = "Christmas" then
    .error renderArityError
  else if sunday_season = "Epiphany" then
    .error renderArityError
  else if sunday_season = "Lent" then
    .error renderArityError
  else if sunday_season = "Holy Week" then
    .ok ("Holy Week", some "Holy Week")
  else if sunday_season = "Easter" then
    .error renderArityError
  else if sunday_season = "Pentecost" then
    .ok ("Pentecost", some "Pentecost")
  else if sunday_season = "Trinity" then
    let weekno := get_week_number week_start_sunday_date - 18
    let week_name :=
      if 56 ≤ sunday_easter_point ∧ sunday_easter_point < 63 then "Trinity"
      else "Proper " ++ toString weekno
    let trinity_week := (sunday_easter_point - 56) / 7 + 1
    .ok (week_name, some ("Trinity " ++ toString trinity_week))
  else if sunday_season = "Pre-Advent" then
    let advent_sunday_abs := date_to_days year 12 25 + advent_sunday
    let weeks_until_advent := (advent_sunday_abs - days) / 7
    let week_name :=
      if weeks_until_advent = 0 then "Advent 1"
      else toString weeks_until_advent ++ " before Advent"
    .ok (week_name, some week_name)
  else if sunday_season = "Ordinary Time" then
    .error renderArityError
  else
    .ok (sunday_season, some sunday_season)

/-- Zero-padded two-digit rendering of a (nonnegative) component, as
Python's `"%02d"` / `f"{n:02d}"` produce for month and day numbers. -/
def pad2 (n : Int) : String :=
  if n < 10 then "0" ++ toString n else toString n

/-- The `"MM-DD"` string for a month/day pair. -/
def mmdd (m d : Int) : String := pad2 m ++ "-" ++ pad2 d

/-- The fixed Christmas/Epiphany dates whose weekday reading key is
suppressed by `SeasonCalculator.week_info` (source lines 218-222). -/
def isFixedWeekdayDate (m d : Int) : Bool :=
  let s := mmdd m d
  s == "12-29" || s == "12-30" || s == "12-31" ||
  s == "01-02" || s == "01-03" || s == "01-04" || s == "01-05" ||
  s == "01-07" || s == "01-08" || s == "01-09" || s == "01-10" ||
  s == "01-11" || s == "01-12"

/-- Result record of `SeasonCalculator.week_info`. -/
structure WeekInfo where
  season : String
  week_name : String
  week_start_sunday : PyDate
  weekday_reading_key : Option String
deriving Repr, DecidableEq

/-- The tail of `SeasonCalculator.week_info` (source lines 183-231),
reached only when the per-season dispatch did not raise: the Pre-Lent
weekday-reading-key override, then the fixed Christmas/Epiphany
suppression, then the result record.  Date comparisons in the
override are CPython `date` comparisons, i.e. ordinal comparisons. -/
def weekInfoAssemble (current_season : String) (week_start_sunday_date : PyDate)
    (week_start_sunday_days easterday fm fd : Int)
    (branch : String × Option String) : WeekInfo :=
  let week_name := branch.1
  let weekday_reading_key := branch.2
  let ash_wednesday_days := easterday - 46
  let pre_lent_start_sunday_days := ash_wednesday_days - 7 * 5
  let override_weekday_reading_key : Option String :=
    if pre_lent_start_sunday_days ≤ week_start_sunday_days ∧
        week_start_sunday_days < ash_wednesday_days then
      let n := (ash_wednesday_days - week_start_sunday_days) / 7 + 1
      if 1 ≤ n ∧ n ≤ 5 then some (toString n ++ " before Lent") else none
    else none
  let key1 :=
    match override_weekday_reading_key with
    | some k => some k
    | none => weekday_reading_key
  let key2 := if isFixedWeekdayDate fm fd then none else key1
  ⟨current_season, week_name, week_start_sunday_date, key2⟩

/-- Embedding of `SeasonCalculator.week_info` (source lines 77-231):
week information for the Sunday that starts the current week, then the
Pre-Lent weekday-reading-key override, then the fixed
Christmas/Epiphany suppression.  When the per-season dispatch raises
(`weekInfoBranch`'s seven `TypeError` branches), the exception
propagates and none of the later override/suppression lines run.
Date comparisons in the override are CPython `date` comparisons,
i.e. ordinal comparisons. -/
def week_info (ym mm dm : Int) : Except String WeekInfo :=
  let f := PyDate.ofYMD ym mm dm
  let year := f.y
  let days := date_to_days f.y f.m f.d
  let em := (get_easter year).1
  let ed := (get_easter year).2
  let easterday := date_to_days year em ed
  let advent_sunday := get_advent_sunday year
  let dayofweek := day_of_week f.y f.m f.d
  let week_start_sunday_days := days - dayofweek
  let week_start_sunday_date := PyDate.ofDays week_start_sunday_days
  let sunday_easter_point := week_start_sunday_days - easterday
  let sunday_christmasday :=
    if week_start_sunday_date.m ≤ 2 then date_to_days (year - 1) 12 25
    else date_to_days year 12 25
  let sunday_christmas_point := week_start_sunday_days - sunday_christmasday
  let sunday_season := determine_season week_start_sunday_date
  let current_season := determine_season f
  (weekInfoBranch sunday_season sunday_easter_point
      sunday_christmas_point advent_sunday week_start_sunday_date days year
      advent_sunday).map
    (weekInfoAssemble current_season week_start_sunday_date
      week_start_sunday_days easterday f.m f.d)

/-! ### Records and tables -/

/-- A liturgical record: the Python `dict` used both for feast-table
entries and for the assembled result.  Optional keys are `Option`
fields; `name` and `prec` are the two keys every constructed record
carries (`{'name': '', 'prec': 1}` is the no-feast default). -/
structure Rec where
  name : String := ""
  prec : Int := 1
  typ : Option String := none
  colour : Option String := none
  martyr : Bool := false
  readings : Option (List String) := none
  season : Option String := none
  season_url : Option String := none
  weekno : Option Int := none
  week : Option String := none
  date : Option (Int × Int × Int) := none
  weekday_reading : Option String := none
  colourcode : Option String := none
deriving Repr, DecidableEq

/-- Modelled from the spec: the read-only data tables of the
repository's `liturgical_calendar/data` package (feast tables keyed by
easter point and "MM-DD", and the three readings tables of §4.3),
which are not under `src/`.  The core is parametrised over them, as
the spec's §9 prescribes (tables "treated as read-only after
initialization", dependency-injected). -/
structure Tables where
  easterFeast : Int → Option Rec
  christmasFeast : String → Option Rec
  sundayReadings : String → String → List String
  weekdayReadings : String → String → Int → List String
  fixedWeekdayReadings : String → Int → List String

/-! ### `core/readings_manager.py` -/

/-- Embedding of `ReadingsManager.get_yearly_cycle`: Sunday cycle
`['A','B','C'][(year-1) % 3]` and weekday cycle `1` if the year is
even else `2`. -/
def get_yearly_cycle (year : Int) : String × Int :=
  let sunday_cycle :=
    if (year - 1) % 3 = 0 then "A" else if (year - 1) % 3 = 1 then "B" else "C"
  let weekday_cycle := if year % 2 = 0 then 1 else 2
  (sunday_cycle, weekday_cycle)

/-- `date.strftime('%A')`: English day name; `date.weekday()` of the
date with day count `days` is `days % 7` (Monday = 0). -/
def dayName (days : Int) : String :=
  let w := days % 7
  if w = 0 then "Monday" else if w = 1 then "Tuesday"
  else if w = 2 then "Wednesday" else if w = 3 then "Thursday"
  else if w = 4 then "Friday" else if w = 5 then "Saturday"
  else "Sunday"

/-- Embedding of `ReadingsManager.get_readings_for_date` (source lines
131-184): Sunday-table lookup on Sundays; on weekdays the week-based
key (`weekday_reading`, falling back to `week` when it is `None`)
first, then the fixed-date table.  The nested `dict.get` lookups with
list defaults are the `Tables` functions.  This same entry is what
`liturgical.py` imports as `get_readings_for_date` (its `readings`
module is not under `src/`; the manager carries the function and the
repository's unit tests pin its behaviour). -/
def get_readings_for_date (T : Tables) (y m d : Int) (info : Rec) : List String :=
  let days := date_to_days y m d
  let cyc := get_yearly_cycle y
  if days % 7 = 6 then
    match info.week with
    | some w => if w ≠ "" then T.sundayReadings w cyc.1 else []
    | none => []
  else
    let weekday_reading :=
      match info.weekday_reading with
      | some s => some s
      | none => info.week
    let week_based :=
      match weekday_reading with
      | some w => if w ≠ "" then T.weekdayReadings w (dayName days) cyc.2 else []
      | none => []
    if week_based ≠ [] then week_based
    else T.fixedWeekdayReadings (mmdd m d) cyc.2

/-! ### `liturgical.py` -/

/-- Python `f"{season} {weekno}"` rendering of an optional week
number (`None` prints as "None"). -/
def optIntStr : Option Int → String
  | some k => toString k
  | none => "None"

/-- The season / week-number / weekday-reading block of
`liturgical_calendar` (source lines 68-143): the elif chain over
`christmas_point` and `easter_point` (note it differs from
`SeasonCalculator.determine_season`: Advent is tested first and the
Pre-Lent window is `-61 < easter_point ≤ -47` nested inside Ordinary
Time).  Returns (season, season_url, weekno, weekday_reading) just
before the `weekno` normalisation of line 144. -/
def seasonWeekBlock (f : PyDate) (days easter_point christmas_point advent_sunday dayofweek : Int) :
    String × String × Int × Option String :=
  if christmas_point ≥ advent_sunday ∧ christmas_point ≤ -1 then
    ("Advent", "https://en.wikipedia.org/wiki/Advent",
      1 + (christmas_point - advent_sunday) / 7, none)
  else if christmas_point ≥ 0 ∧ christmas_point ≤ 11 then
    ("Christmas", "https://en.wikipedia.org/wiki/Christmastide",
      1 + (christmas_point - dayofweek) / 7, none)
  else if christmas_point ≥ 12 ∧ christmas_point < 40 then
    ("Epiphany", "https://en.wikipedia.org/wiki/Epiphany_season",
      1 + (christmas_point - 12 - dayofweek) / 7, none)
  else if easter_point ≤ -47 then
    if easter_point > -61 ∧ easter_point ≤ -47 then
      ("Pre-Lent", "https://en.wikipedia.org/wiki/Septuagesima",
        1 + (easter_point * (-1) - 47) / 7, none)
    else if easter_point > -82 ∧ easter_point < -62 then
      ("Ordinary Time", "https://en.wikipedia.org/wiki/Ordinary_Time",
        get_week_number f - 5,
        some (render_week_name "Pre-Lent" (some (1 + (easter_point * (-1) - 47) / 7))).1)
    else
      ("Ordinary Time", "https://en.wikipedia.org/wiki/Ordinary_Time",
        get_week_number f - 5, none)
  else if easter_point > -47 ∧ easter_point < -7 then
    ("Lent", "https://en.wikipedia.org/wiki/Lent",
      (easter_point + 50 - dayofweek) / 7, none)
  else if easter_point ≥ -7 ∧ easter_point < 0 then
    ("Holy Week", "https://en.wikipedia.org/wiki/Holy_Week", 0, none)
  else if easter_point ≥ 0 ∧ easter_point < 49 then
    ("Easter", "https://en.wikipedia.org/wiki/Eastertide", 1 + easter_point / 7, none)
  else if easter_point ≥ 49 ∧ easter_point < 56 then
    ("Pentecost", "https://en.wikipedia.org/wiki/Ordinary_Time", 0, none)
  else
    let weekno0 := get_week_number f - 18
    let part :=
      if christmas_point ≥ advent_sunday - 28 ∧ christmas_point < advent_sunday then
        ("Pre-Advent", 1 + (-1) * (christmas_point - advent_sunday + 1) / 7,
          (none : Option String))
      else
        ("Trinity", weekno0, some ("Trinity " ++ toString ((easter_point - 56) / 7 + 1)))
    let weekno1 :=
      if easter_point ≥ 56 ∧ easter_point < 63 then 0 else part.2.1
    (part.1, "https://en.wikipedia.org/wiki/Ordinary_Time", weekno1, part.2.2)

/-- Stable insertion of a record into a precedence-descending list:
a record goes before the first strictly lower-precedence entry and
after equal ones, which is exactly where Python's stable
`sorted(key=prec, reverse=True)` places it. -/
def insertDesc (x : Rec) : List Rec → List Rec
  | [] => [x]
  | y :: ys => if x.prec ≥ y.prec then x :: y :: ys else y :: insertDesc x ys

/-- Embedding of `sorted(possibles, key=lambda x: x['prec'],
reverse=True)`: stable descending sort by precedence. -/
def sortDesc : List Rec → List Rec
  | [] => []
  | x :: xs => insertDesc x (sortDesc xs)

/-- The candidate-collection block of `liturgical_calendar` (source
lines 146-174): easter-keyed feast, then "MM-DD"-keyed feast, then the
feast transferred from yesterday (renamed "<name> (transferred)" and
kept only when its precedence is not 5 — "Sundays can't be
transferred"), then the implicit Sunday candidate
`{'prec': 5, 'type': 'Sunday', 'name': f"{season} {weekno}"}`, added
whenever the day is a Sunday.  `transferredFeast` is the value of the
recursive `transferred=True` call (`None` when the call was not made,
i.e. when this call itself is in transferred mode). -/
def possiblesFor (T : Tables) (y m d : Int) (transferredFeast : Option Rec) : List Rec :=
  let f := PyDate.ofYMD y m d
  let days := date_to_days y m d
  let dayofweek := day_of_week y m d
  let em := (get_easter y).1
  let ed := (get_easter y).2
  let easterday := date_to_days y em ed
  let easter_point := days - easterday
  let christmas_point :=
    if m > 2 then days - date_to_days y 12 25 else days - date_to_days (y - 1) 12 25
  let advent_sunday := get_advent_sunday y
  let swb := seasonWeekBlock f days easter_point christmas_point advent_sunday dayofweek
  let season := swb.1
  let weekno := swb.2.2.1
  let weeknoN : Option Int := if weekno > 0 then some weekno else none
  let l1 := match T.easterFeast easter_point with | some ft => [ft] | none => []
  let l2 := l1 ++ (match T.christmasFeast (mmdd m d) with | some ft => [ft] | none => [])
  let l3 := l2 ++
    (match transferredFeast with
     | some tf =>
       let tf2 := { tf with name := tf.name ++ " (transferred)" }
       if tf2.prec ≠ 5 then [tf2] else []
     | none => [])
  l3 ++
    (if dayofweek = 0 then
      [{ name := season ++ " " ++ optIntStr weeknoN, prec := 5, typ := some "Sunday" }]
     else [])

/-- The transferred-mode selection of `liturgical_calendar` (source
lines 179-188): on an empty list the `IndexError` is caught and `None`
returned; if the top of the sorted list has precedence 5 the answer is
`None` ("Sundays don't get transferred"); otherwise `possibles[1]`
(again `None` when absent). -/
def transferredSelect : List Rec → Option Rec
  | [] => none
  | top :: rest => if top.prec = 5 then none else rest.head?

/-- The colour block of `liturgical_calendar` (source lines 207-239):
rose for the names "Advent 3" / "Lent 4", else any colour already on
the record, else white/red for a feast of precedence above 4 (other
than 5), else the seasonal default. -/
def colourBlock (r : Rec) (season : String) : String :=
  let colour1 : Option String :=
    if r.name = "Advent 3" ∨ r.name = "Lent 4" then some "rose" else r.colour
  match colour1 with
  | some c => c
  | none =>
    if r.prec > 4 ∧ r.prec ≠ 5 then
      if r.martyr then "red" else "white"
    else
      if season = "Advent" then "purple"
      else if season = "Christmas" then "white"
      else if season = "Epiphany" then "white"
      else if season = "Lent" then "purple"
      else if season = "Holy Week" then "red"
      else if season = "Easter" then "white"
      else "green"

/-- The special-Sundays block of `liturgical_calendar` (source lines
241-249): for an ordinary-Sunday result (precedence 5), Advent Sunday
and Christ the King are renamed and forced white. -/
def specialSundays (r : Rec) (christmas_point advent_sunday : Int) : Rec :=
  if r.prec = 5 then
    if christmas_point = advent_sunday then
      { r with name := "Advent Sunday", colour := some "white" }
    else if christmas_point = advent_sunday - 7 then
      { r with name := "Christ the King", colour := some "white" }
    else r
  else r

/-- The readings block of `liturgical_calendar` (source lines
254-258): look up readings unless the record already carries some, in
which case week/fixed readings are appended only below precedence 5. -/
def addReadings (T : Tables) (y m d : Int) (r : Rec) : Rec :=
  match r.readings with
  | none => { r with readings := some (get_readings_for_date T y m d r) }
  | some rs =>
    if r.prec < 5 then
      { r with readings := some (rs ++ get_readings_for_date T y m d r) }
    else r

/-- The transferred-mode value of `liturgical_calendar` (the
`transferred=True` slice of the source: collection without lookahead,
stable descending sort, `transferredSelect`). -/
def innerResult (T : Tables) (y m d : Int) : Option Rec :=
  transferredSelect (sortDesc (possiblesFor T y m d none))

/-- The normal-mode result assembly of `liturgical_calendar` (source
lines 190-259) given the value `transferredFeast` of the recursive
lookahead call: pick the top of the sorted candidates (or the
`{'name': '', 'prec': 1}` default), render the week name, attach
season/week/date fields, run the colour block, the special-Sundays
block, the colour code, and the readings block. -/
def outerResult (T : Tables) (y m d : Int) (transferredFeast : Option Rec) : Rec :=
  let f := PyDate.ofYMD y m d
  let days := date_to_days y m d
  let dayofweek := day_of_week y m d
  let em := (get_easter y).1
  let ed := (get_easter y).2
  let easterday := date_to_days y em ed
  let easter_point := days - easterday
  let christmas_point :=
    if m > 2 then days - date_to_days y 12 25 else days - date_to_days (y - 1) 12 25
  let advent_sunday := get_advent_sunday y
  let swb := seasonWeekBlock f days easter_point christmas_point advent_sunday dayofweek
  let season := swb.1
  let season_url := swb.2.1
  let weekno := swb.2.2.1
  let weekday_reading := swb.2.2.2
  let weeknoN : Option Int := if weekno > 0 then some weekno else none
  let sorted := sortDesc (possiblesFor T y m d transferredFeast)
  let result0 := sorted.head?.getD { name := "", prec := 1 }
  let wk := render_week_name season weeknoN
  let week := wk.1
  let season2 := wk.2
  let r1 := { result0 with
    season := some season2, season_url := some season_url,
    weekno := weeknoN, week := some week, date := some (y, m, d),
    weekday_reading := weekday_reading }
  let r2 := { r1 with colour := some (colourBlock r1 season2) }
  let r3 := specialSundays r2 christmas_point advent_sunday
  let r4 := { r3 with colourcode := r3.colour.bind colour_code }
  addReadings T y m d r4

/-- Embedding of `liturgical_calendar(s_date, transferred)` (source
lines 16-260), a single recursive function: when `transferred` is
false it calls itself once on the previous day with `transferred=True`
(the date string it formats and re-parses is exactly the previous
day's components, `PyDate.ofDays (days - 1)`).  `fuel` counts the
call frames Python would push; exhausting it is Python's
`RecursionError`.  Transferred mode yields an optional displaced
feast, normal mode always a full record. -/
def liturgicalFuel (T : Tables) :
    Nat → Int → Int → Int → Bool → Except String (Option Rec)
  | 0, _, _, _, _ => .error "RecursionError: maximum recursion depth exceeded"
  | Nat.succ fuel, y, m, d, transferred =>
    match (if transferred = false then
        let yd := PyDate.ofDays (date_to_days y m d - 1)
        liturgicalFuel T fuel yd.y yd.m yd.d true
      else .ok none) with
    | .error e => .error e
    | .ok transferredFeast =>
      if transferred then .ok (innerResult T y m d)
      else .ok (some (outerResult T y m d transferredFeast))

/-- The entry point: Python's recursion depth here is at most two
frames (`c9_transfer_depth` proves the fuel value is irrelevant from
two upward), so two units of fuel realise the full semantics. -/
def liturgical_calendar (T : Tables) (y m d : Int) (transferred : Bool) :
    Except String (Option Rec) :=
  liturgicalFuel T (if transferred then 1 else 2) y m d transferred

/-! ### `services/feast_service.py` -/

/-- Embedding of `FeastService._apply_precedence_rules` (source lines
185-204): stable descending sort; in transferred mode `None` for a
precedence-5 top or a missing second entry, else the second entry; in
normal mode the top entry or the no-feast default. -/
def applyPrecedenceRules (possibles : List Rec) (transferred : Bool) : Option Rec :=
  let sorted := sortDesc possibles
  if transferred then
    match sorted with
    | [] => none
    | top :: rest => if top.prec = 5 then none else rest.head?
  else
    match sorted with
    | [] => some { name := "", prec := 1 }
    | top :: _ => some top

/-- Embedding of `FeastService.get_complete_feast_info` (source lines
38-108).  After its pure prelude (date parsing and point arithmetic,
lines 51-71, with no observable effect), line 74 calls
`self.season_calculator.determine_season(date_obj, easter_point,
christmas_point, advent_sunday)`, but `SeasonCalculator.determine_season`
(core/season_calculator.py line 26) accepts only the date, so every
call raises before anything else can happen; lines 75-79 likewise name
`calculate_week_number`, `calculate_weekday_reading`,
`calculate_sunday_week_info` and `render_week_name`, none of which the
`SeasonCalculator` class defines. -/
def getCompleteFeastInfo (T : Tables) (y m d : Int) (transferred : Bool) :
    Except String Rec :=
  .error "TypeError: determine_season() takes 2 positional arguments but 5 were given"

/-! ### A concrete table instance -/

/-- Modelled from the spec: a concrete `Tables` instance.  The feast
tables carry the two Principal Feasts (precedence 9, §4.4) the spec's
§8 scenarios exercise — Easter Day at easter point 0 and Christmas Day
at "12-25".  The readings tables carry the entries the repository's
own unit tests pin for the §8 precedence scenarios
(tests/unit/test_readings_manager.py): weekday readings for
"Epiphany 1" Monday and fixed-date readings for "12-30" and "01-08";
the Sunday table is empty (a missing entry is the defined no-match
outcome, §7). -/
def modelTables : Tables where
  easterFeast ep := if ep = 0 then some { name := "Easter", prec := 9 } else none
  christmasFeast md :=
    if md = "12-25" then some { name := "Christmas", prec := 9 } else none
  sundayReadings _ _ := []
  weekdayReadings key day cyc :=
    if key = "Epiphany 1" ∧ day = "Monday" ∧ cyc = 1 then
      ["Epiphany 1 Monday Reading 1", "Epiphany 1 Monday Reading 2"]
    else []
  fixedWeekdayReadings md cyc :=
    if md = "12-30" ∧ cyc = 1 then ["1 John 2:3-11", "John 21:19-25"]
    else if md = "01-08" ∧ cyc = 1 then
      ["Fixed Jan 8 Reading 1", "Fixed Jan 8 Reading 2"]
    else []

/-! ### Derived quantities named for use in theorem statements -/

/-- The easter point of a date: day count minus the day count of that
year's Easter Sunday. -/
def easterPointOf (y m d : Int) : Int :=
  date_to_days y m d - date_to_days y (get_easter y).1 (get_easter y).2

/-- The christmas point as `SeasonCalculator.determine_season` forms
it: offset from the previous year's Christmas for January/February
dates, else from this year's. -/
def christmasPointOf (y m d : Int) : Int :=
  date_to_days y m d -
    (if m ≤ 2 then date_to_days (y - 1) 12 25 else date_to_days y 12 25)

/-- The christmas point as `liturgical_calendar` forms it (the same
value, with the guard written `month > 2`). -/
def christmasPointLit (y m d : Int) : Int :=
  if m > 2 then date_to_days y m d - date_to_days y 12 25
  else date_to_days y m d - date_to_days (y - 1) 12 25

/-- Whole weeks from a date until that year's Advent Sunday. -/
def weeksUntilAdventOf (y m d : Int) : Int :=
  (date_to_days y 12 25 + get_advent_sunday y - date_to_days y m d) / 7

/-- Day count of Ash Wednesday (Easter − 46 days). -/
def ashWednesdayOf (y : Int) : Int :=
  date_to_days y (get_easter y).1 (get_easter y).2 - 46

/-- Day count of the Sunday that opens a date's week. -/
def weekStartSundayOf (y m d : Int) : Int :=
  date_to_days y m d - day_of_week y m d

/-- The name `liturgical_calendar` gives its implicit Sunday
candidate: `f"{season} {weekno}"` over the season/week block's season
and normalised week number. -/
def litSundayName (y m d : Int) : String :=
  let f := PyDate.ofYMD y m d
  let days := date_to_days y m d
  let dayofweek := day_of_week y m d
  let em := (get_easter y).1
  let ed := (get_easter y).2
  let easterday := date_to_days y em ed
  let easter_point := days - easterday
  let christmas_point :=
    if m > 2 then days - date_to_days y 12 25 else days - date_to_days (y - 1) 12 25
  let advent_sunday := get_advent_sunday y
  let swb := seasonWeekBlock f days easter_point christmas_point advent_sunday dayofweek
  let weekno := swb.2.2.1
  let weeknoN : Option Int := if weekno > 0 then some weekno else none
  swb.1 ++ " " ++ optIntStr weeknoN

/-- The candidate list before the implicit-Sunday step: easter-keyed
feast, "MM-DD"-keyed feast and (renamed, non-Sunday) transferred
feast, in that order. -/
def litBasePossibles (T : Tables) (y m d : Int) (transferredFeast : Option Rec) :
    List Rec :=
  let days := date_to_days y m d
  let em := (get_easter y).1
  let ed := (get_easter y).2
  let easterday := date_to_days y em ed
  let easter_point := days - easterday
  let l1 := match T.easterFeast easter_point with | some ft => [ft] | none => []
  let l2 := l1 ++ (match T.christmasFeast (mmdd m d) with | some ft => [ft] | none => [])
  l2 ++
    (match transferredFeast with
     | some tf =>
       let tf2 := { tf with name := tf.name ++ " (transferred)" }
       if tf2.prec ≠ 5 then [tf2] else []
     | none => [])

/-- The record `liturgical_calendar(date, transferred=False)` returns:
the outer assembly applied to the transferred-mode value of the
previous day (the lemma `liturgical_calendar_false_eq` ties this to
the fuelled entry point). -/
def litResult (T : Tables) (y m d : Int) : Rec :=
  let yd := PyDate.ofDays (date_to_days y m d - 1)
  outerResult T y m d (innerResult T yd.y yd.m yd.d)

/-! ### Definitions written from the spec's words, for comparison -/

/-- The season table of spec §4.1, rows in the spec's order,
first match wins, as a function of (easter point, christmas point,
advent-Sunday offset, weeks-until-Advent, day of week). -/
def specSeasonTable (ep cp adv wua dow : Int) : String :=
  if -62 ≤ ep ∧ ep ≤ -47 then "Pre-Lent"
  else if adv ≤ cp ∧ cp ≤ -1 then "Advent"
  else if 0 ≤ cp ∧ cp ≤ 11 then "Christmas"
  else if 12 ≤ cp ∧ cp < 40 then "Epiphany"
  else if ep ≤ -62 then "Ordinary Time"
  else if -47 < ep ∧ ep < -7 then "Lent"
  else if -7 ≤ ep ∧ ep < 0 then "Holy Week"
  else if 0 ≤ ep ∧ ep < 49 then "Easter"
  else if 49 ≤ ep ∧ ep < 56 then "Pentecost"
  else if dow = 0 ∧ 0 < wua ∧ wua ≤ 4 then "Pre-Advent"
  else "Trinity"

/-- The readings-selection policy in the corrected (amended) reading
of spec §4.3: Sunday-table lookup via the week name on Sundays;
on weekdays the week-based key (the weekday reading key, falling back
to the week name when the key is absent) wins whenever its table entry
is non-empty, and the fixed-date table is the fallback. -/
def specReadingsSelector (T : Tables) (y m d : Int) (info : Rec) : List String :=
  let days := date_to_days y m d
  let cycles := get_yearly_cycle y
  if dayName days = "Sunday" then
    match info.week with
    | some w => if w = "" then [] else T.sundayReadings w cycles.1
    | none => []
  else
    let key := info.weekday_reading.orElse fun _ => info.week
    let weekBased :=
      match key with
      | some w => if w = "" then [] else T.weekdayReadings w (dayName days) cycles.2
      | none => []
    if weekBased = [] then T.fixedWeekdayReadings (mmdd m d) cycles.2 else weekBased

/-- Colour determination in the corrected (amended) reading of spec
§4.4: the Advent Sunday / Christ the King white override first (it is
applied after the colour rules in the code and so wins), then rose by
the winning record's name, then the record's explicit colour, then the
feast rule, then the seasonal defaults in the spec's order. -/
def colourRulesAmended (r : Rec) (season : String) (cp adv : Int) : String :=
  if r.prec = 5 ∧ (cp = adv ∨ cp = adv - 7) then "white"
  else if r.name = "Advent 3" ∨ r.name = "Lent 4" then "rose"
  else
    match r.colour with
    | some c => c
    | none =>
      if r.prec > 4 ∧ r.prec ≠ 5 then
        if r.martyr then "red" else "white"
      else
        if season = "Advent" then "purple"
        else if season = "Christmas" then "white"
        else if season = "Epiphany" then "white"
        else if season = "Lent" then "purple"
        else if season = "Holy Week" then "red"
        else if season = "Easter" then "white"
        else "green"

/-! ## Theorems -/

/-- Unfolding lemma: a transferred-mode call with any fuel at all
performs no recursion and yields the transferred-mode value. -/
theorem liturgicalFuel_true (T : Tables) (n : Nat) (y m d : Int) :
    liturgicalFuel T (n + 1) y m d true = .ok (innerResult T y m d) := rfl

/-- Unfolding lemma: a normal-mode call with at least two units of
fuel yields the assembled record, whose lookahead is the previous
day's transferred-mode value. -/
theorem liturgicalFuel_false (T : Tables) (n : Nat) (y m d : Int) :
    liturgicalFuel T (n + 2) y m d false = .ok (some (litResult T y m d)) := rfl

/-- The entry point in normal mode always returns a record. -/
theorem liturgical_calendar_false_eq (T : Tables) (y m d : Int) :
    liturgical_calendar T y m d false = .ok (some (litResult T y m d)) := rfl

set_option maxHeartbeats 1000000 in
/-- Every value of the spec §4.1 season table belongs to the
enumerated season set. -/
theorem specSeasonTable_mem (ep cp adv wua dow : Int) :
    specSeasonTable ep cp adv wua dow ∈
      ["Advent", "Christmas", "Epiphany", "Pre-Lent", "Ordinary Time", "Lent",
        "Holy Week", "Easter", "Pentecost", "Trinity", "Pre-Advent"] := by
  unfold specSeasonTable
  split_ifs <;> (repeat first | exact List.Mem.head _ | apply List.Mem.tail)

/-- C1: for every valid Gregorian date, `determine_season` agrees with
the §4.1 table evaluated top-to-bottom (first match wins), returns a
member of the enumerated eleven-season set, and gives Pre-Lent
whenever −62 ≤ easter_point ≤ −47, ahead of the Advent, Christmas and
Epiphany rows. -/
theorem c1_season_table (y m d : Int) (h : validDate y m d) :
    determine_season (PyDate.ofYMD y m d) =
      specSeasonTable (easterPointOf y m d) (christmasPointOf y m d)
        (get_advent_sunday y) (weeksUntilAdventOf y m d) (day_of_week y m d) ∧
    determine_season (PyDate.ofYMD y m d) ∈
      ["Advent", "Christmas", "Epiphany", "Pre-Lent", "Ordinary Time", "Lent",
        "Holy Week", "Easter", "Pentecost", "Trinity", "Pre-Advent"] ∧
    (-62 ≤ easterPointOf y m d ∧ easterPointOf y m d ≤ -47 →
      determine_season (PyDate.ofYMD y m d) = "Pre-Lent") := by
  have heq : determine_season (PyDate.ofYMD y m d) =
      specSeasonTable (easterPointOf y m d) (christmasPointOf y m d)
        (get_advent_sunday y) (weeksUntilAdventOf y m d) (day_of_week y m d) := by
    unfold determine_season specSeasonTable easterPointOf christmasPointOf
      weeksUntilAdventOf PyDate.ofYMD
    rfl
  refine ⟨heq, ?_, ?_⟩
  · rw [heq]; exact specSeasonTable_mem ..
  · intro hep
    rw [heq]; unfold specSeasonTable
    rw [if_pos hep]

/-- Witness for C1 at 2025-12-01 (First Sunday of Advent week). -/
theorem c1_season_table_witness :
    validDate 2025 12 1 ∧
    (determine_season (PyDate.ofYMD 2025 12 1) =
      specSeasonTable (easterPointOf 2025 12 1) (christmasPointOf 2025 12 1)
        (get_advent_sunday 2025) (weeksUntilAdventOf 2025 12 1) (day_of_week 2025 12 1) ∧
    determine_season (PyDate.ofYMD 2025 12 1) ∈
      ["Advent", "Christmas", "Epiphany", "Pre-Lent", "Ordinary Time", "Lent",
        "Holy Week", "Easter", "Pentecost", "Trinity", "Pre-Advent"] ∧
    (-62 ≤ easterPointOf 2025 12 1 ∧ easterPointOf 2025 12 1 ≤ -47 →
      determine_season (PyDate.ofYMD 2025 12 1) = "Pre-Lent")) :=
  ⟨by decide, c1_season_table 2025 12 1 (by decide)⟩

/-- C2: the legacy entry point `liturgical_calendar` is total — for
every valid date of the 1900–2100 sweep (the proof does not even need
the range) it returns a record and no error — while the service-layer
entry point `FeastService.get_complete_feast_info` raises a
`TypeError` on every call, because it drives `SeasonCalculator` with
an argument list the class does not accept (see
`getCompleteFeastInfo`). -/
theorem c2_entry_totality (T : Tables) (y m d : Int)
    (h : validDate y m d) (h1 : 1900 ≤ y) (h2 : y ≤ 2100) :
    (∃ r, liturgical_calendar T y m d false = .ok (some r)) ∧
    (∀ t : Bool, getCompleteFeastInfo T y m d t =
      .error "TypeError: determine_season() takes 2 positional arguments but 5 were given") :=
  ⟨⟨litResult T y m d, liturgical_calendar_false_eq T y m d⟩, fun _ => rfl⟩

/-- Witness for C2 at 2025-06-01. -/
theorem c2_entry_totality_witness :
    validDate 2025 6 1 ∧ (1900 : Int) ≤ 2025 ∧ (2025 : Int) ≤ 2100 ∧
    ((∃ r, liturgical_calendar modelTables 2025 6 1 false = .ok (some r)) ∧
     (∀ t : Bool, getCompleteFeastInfo modelTables 2025 6 1 t =
       .error "TypeError: determine_season() takes 2 positional arguments but 5 were given")) :=
  ⟨by decide, by decide, by decide,
    c2_entry_totality modelTables 2025 6 1 (by decide) (by decide) (by decide)⟩

/-- C9: the transferred-feast lookahead recurses exactly one day:
one unit of fuel (call frame) fully determines every transferred-mode
call and two units every normal-mode call, with zero fuel Python's
`RecursionError`; consequently the entry point is total in both
modes. -/
theorem c9_transfer_depth (T : Tables) (y m d : Int) (fuel : Nat) :
    (2 ≤ fuel → liturgicalFuel T fuel y m d false = liturgicalFuel T 2 y m d false) ∧
    (1 ≤ fuel → liturgicalFuel T fuel y m d true = liturgicalFuel T 1 y m d true) ∧
    liturgicalFuel T 0 y m d false =
      .error "RecursionError: maximum recursion depth exceeded" ∧
    liturgical_calendar T y m d true = .ok (innerResult T y m d) ∧
    liturgical_calendar T y m d false = .ok (some (litResult T y m d)) := by
  refine ⟨?_, ?_, rfl, rfl, rfl⟩
  · intro hf
    obtain ⟨k, rfl⟩ : ∃ k, fuel = k + 2 := ⟨fuel - 2, by omega⟩
    exact (liturgicalFuel_false T k y m d).trans (liturgicalFuel_false T 0 y m d).symm
  · intro hf
    obtain ⟨k, rfl⟩ : ∃ k, fuel = k + 1 := ⟨fuel - 1, by omega⟩
    exact (liturgicalFuel_true T k y m d).trans (liturgicalFuel_true T 0 y m d).symm

/-- Witness for C9: seven units of fuel give the same answer as two. -/
theorem c9_transfer_depth_witness :
    2 ≤ 7 ∧
    liturgicalFuel modelTables 7 2025 3 5 false = liturgicalFuel modelTables 2 2025 3 5 false :=
  ⟨by omega, (c9_transfer_depth modelTables 2025 3 5 7).1 (by omega)⟩

/-- C3 (corrected): what "transferred" actually does.  In transferred
mode, both `liturgical_calendar` (lines 179-188) and
`FeastService._apply_precedence_rules` return nothing when the
top-ranked candidate has precedence 5 (a Sunday — Sundays are never
transferred) and otherwise the second-highest candidate (nothing when
there is none); and a displaced candidate of precedence 5 coming back
from the lookahead is never added to the next day's candidates.  A
feast is therefore carried forward only when displaced by a
higher-precedence non-Sunday feast; a feast that falls on a Sunday and
outranks it simply wins that date (see `c3_counterexample`). -/
theorem c3_transferred_selection :
    (∀ (ps : List Rec) (t : Rec), (sortDesc ps).head? = some t →
      ((t.prec = 5 →
          transferredSelect (sortDesc ps) = none ∧
          applyPrecedenceRules ps true = none) ∧
       (t.prec ≠ 5 →
          transferredSelect (sortDesc ps) = (sortDesc ps).get? 1 ∧
          applyPrecedenceRules ps true = (sortDesc ps).get? 1))) ∧
    (∀ (T : Tables) (y m d : Int) (tf : Rec), tf.prec = 5 →
      possiblesFor T y m d (some tf) = possiblesFor T y m d none) := by
  constructor
  · intro ps t ht
    rcases hs : sortDesc ps with _ | ⟨top, rest⟩
    · rw [hs] at ht; exact absurd ht (by simp)
    · rw [hs] at ht
      have htop : top = t := by simpa using ht
      subst htop
      constructor
      · intro h5
        constructor
        · simp [transferredSelect, h5]
        · simp [applyPrecedenceRules, hs, h5]
      · intro h5
        constructor
        · simp [transferredSelect, h5]
          cases rest <;> simp
        · simp [applyPrecedenceRules, hs, h5]
          cases rest <;> simp
  · intro T y m d tf h5
    unfold possiblesFor
    have hp : ({ tf with name := tf.name ++ " (transferred)" } : Rec).prec = tf.prec := rfl
    simp [hp, h5]

/-- Witness for C3 at a two-candidate list with precedences 9 and 7:
the displaced precedence-7 candidate is the one returned. -/
theorem c3_transferred_selection_witness :
    (sortDesc [{ name := "A", prec := 9 }, { name := "B", prec := 7 }]).head? =
      some { name := "A", prec := 9 } ∧
    ({ name := "A", prec := 9 } : Rec).prec ≠ 5 ∧
    (transferredSelect (sortDesc [{ name := "A", prec := 9 }, { name := "B", prec := 7 }]) =
      (sortDesc [{ name := "A", prec := 9 }, { name := "B", prec := 7 }]).get? 1 ∧
     applyPrecedenceRules [{ name := "A", prec := 9 }, { name := "B", prec := 7 }] true =
      (sortDesc [{ name := "A", prec := 9 }, { name := "B", prec := 7 }]).get? 1) :=
  ⟨by decide, by decide,
    (c3_transferred_selection.1 [{ name := "A", prec := 9 }, { name := "B", prec := 7 }]
      { name := "A", prec := 9 } (by decide)).2 (by decide)⟩

/-- Counterexample to C3 as stated: 2022-12-25 is a Sunday carrying
the high-precedence fixed feast Christmas (precedence 9).  The feast's
name — not the Sunday's own name "Christmas 1" — wins the date, and
the next day  2022-12-26 (a Monday with no feast of its own in the
table) shows the empty name, not "Christmas (transferred)": what the
lookahead found displaced on the Sunday was the Sunday candidate
itself, and Sundays are never transferred. -/
theorem c3_counterexample :
    day_of_week 2022 12 25 = 0 ∧
    (modelTables.christmasFeast "12-25").map Rec.prec = some 9 ∧
    (liturgical_calendar modelTables 2022 12 25 false).map (Option.map Rec.name) =
      .ok (some "Christmas") ∧
    (liturgical_calendar modelTables 2022 12 26 false).map (Option.map Rec.name) =
      .ok (some "") :=
  ⟨rfl, rfl, rfl, rfl⟩

/-- The readings block changes no field but `readings`: name. -/
theorem addReadings_name (T : Tables) (y m d : Int) (x : Rec) :
    (addReadings T y m d x).name = x.name := by
  unfold addReadings; cases x.readings <;> simp <;> split_ifs <;> rfl

/-- The readings block changes no field but `readings`: colour. -/
theorem addReadings_colour (T : Tables) (y m d : Int) (x : Rec) :
    (addReadings T y m d x).colour = x.colour := by
  unfold addReadings; cases x.readings <;> simp <;> split_ifs <;> rfl

/-- The readings block changes no field but `readings`: precedence. -/
theorem addReadings_prec (T : Tables) (y m d : Int) (x : Rec) :
    (addReadings T y m d x).prec = x.prec := by
  unfold addReadings; cases x.readings <;> simp <;> split_ifs <;> rfl

/-- The special-Sundays block never changes the precedence. -/
theorem specialSundays_prec (x : Rec) (cp adv : Int) :
    (specialSundays x cp adv).prec = x.prec := by
  unfold specialSundays; split_ifs <;> rfl

/-- C10: when the winning candidate has precedence 5 (an ordinary
Sunday) and the christmas point equals the Advent Sunday offset, the
returned name is "Advent Sunday" with colour forced white; when it
equals the offset minus 7, "Christ the King" with colour forced white
— in both cases overriding the seasonal colour the earlier rules
assigned. -/
theorem c10_advent_christ_king (T : Tables) (y m d : Int) :
    ((litResult T y m d).prec = 5 → christmasPointLit y m d = get_advent_sunday y →
      (litResult T y m d).name = "Advent Sunday" ∧
      (litResult T y m d).colour = some "white") ∧
    ((litResult T y m d).prec = 5 → christmasPointLit y m d = get_advent_sunday y - 7 →
      (litResult T y m d).name = "Christ the King" ∧
      (litResult T y m d).colour = some "white") := by
  unfold litResult outerResult christmasPointLit
  simp only [addReadings_name, addReadings_colour, addReadings_prec, specialSundays_prec]
  constructor
  · intro h5 hcp
    unfold specialSundays
    rw [if_pos h5, if_pos hcp]
    exact ⟨rfl, rfl⟩
  · intro h5 hcp
    unfold specialSundays
    by_cases hadv : (if m > 2 then date_to_days y m d - date_to_days y 12 25
        else date_to_days y m d - date_to_days (y - 1) 12 25) = get_advent_sunday y
    · exfalso; omega
    · rw [if_pos h5, if_neg hadv, if_pos hcp]
      exact ⟨rfl, rfl⟩

/-- Witness for C10 at 2025-11-30, the Advent Sunday of 2025. -/
theorem c10_advent_christ_king_witness :
    (litResult modelTables 2025 11 30).prec = 5 ∧
    christmasPointLit 2025 11 30 = get_advent_sunday 2025 ∧
    ((litResult modelTables 2025 11 30).name = "Advent Sunday" ∧
     (litResult modelTables 2025 11 30).colour = some "white") :=
  ⟨rfl, by decide, (c10_advent_christ_king modelTables 2025 11 30).1 rfl (by decide)⟩

/-- C7 (corrected): the colour of every result is determined by the
ordered rules of §4.4 applied to the winning candidate — rose when the
winning record's NAME (not the week name) is "Advent 3" or "Lent 4",
else its explicit colour, else the feast rule (precedence above 4 and
not 5: red for martyrs, white otherwise), else the seasonal default —
all of it overridden to white by the later Advent-Sunday /
Christ-the-King block when the winner has precedence 5 and the
christmas point hits the Advent offset or the offset minus seven.
The first conjunct states this for the colour-and-special-Sundays
stage of the pipeline (`outerResult` applies it with `r` its assembled
winning record); the second checks spec §8's Easter instance:
2025-04-20 yields season "Easter" and colour "white". -/
theorem c7_colour_rules :
    (∀ (r : Rec) (season : String) (cp adv : Int),
      (specialSundays { r with colour := some (colourBlock r season) } cp adv).colour =
        some (colourRulesAmended r season cp adv)) ∧
    (liturgical_calendar modelTables 2025 4 20 false).map
        (Option.map fun x => (x.season, x.colour)) =
      .ok (some (some "Easter", some "white")) := by
  refine ⟨?_, rfl⟩
  intro r season cp adv
  have hprec : ({ r with colour := some (colourBlock r season) } : Rec).prec = r.prec := rfl
  have htail : colourBlock r season =
      (if r.name = "Advent 3" ∨ r.name = "Lent 4" then "rose"
       else match r.colour with
        | some c => c
        | none =>
          if r.prec > 4 ∧ r.prec ≠ 5 then
            if r.martyr then "red" else "white"
          else
            if season = "Advent" then "purple"
            else if season = "Christmas" then "white"
            else if season = "Epiphany" then "white"
            else if season = "Lent" then "purple"
            else if season = "Holy Week" then "red"
            else if season = "Easter" then "white"
            else "green") := by
    unfold colourBlock
    by_cases hn : r.name = "Advent 3" ∨ r.name = "Lent 4"
    · rw [if_pos hn, if_pos hn]
    · rw [if_neg hn, if_neg hn]
  unfold specialSundays colourRulesAmended
  by_cases h5 : r.prec = 5
  · by_cases hA : cp = adv
    · rw [if_pos (hprec.trans h5), if_pos hA, if_pos ⟨h5, Or.inl hA⟩]
    · by_cases hK : cp = adv - 7
      · rw [if_pos (hprec.trans h5), if_neg hA, if_pos hK, if_pos ⟨h5, Or.inr hK⟩]
      · rw [if_pos (hprec.trans h5), if_neg hA, if_neg hK,
          if_neg (by rintro ⟨-, hA2 | hK2⟩ <;> [exact hA hA2; exact hK hK2])]
        exact congrArg some htail
  · rw [if_neg (fun hc => h5 (hprec.symm.trans hc)), if_neg (by rintro ⟨h5c, -⟩; exact h5 h5c)]
    exact congrArg some htail

/-- Counterexample to C7 as stated: 2025-12-15 is a weekday in the
week named "Advent 3", yet its colour is the Advent default purple,
not rose — the rose rule reads the winning candidate's name (empty
here), not the week name. -/
theorem c7_counterexample :
    (liturgical_calendar modelTables 2025 12 15 false).map
        (Option.map fun x => (x.week, x.colour)) =
      .ok (some (some "Advent 3", some "purple")) := rfl

/-- C8 (corrected): on every Sunday `liturgical_calendar` appends the
implicit candidate `{'prec': 5, 'type': 'Sunday',
'name': f"{season} {weekno}"}` unconditionally — with no
Principal-Feast gate (see `c8_counterexample`; the precedence-9 gate
exists only in `FeastService._collect_possible_feasts`, where the
candidate's name is the bare season) — and on non-Sundays the
candidate list is exactly the feast/transferred chunks with no Sunday
candidate.  The candidate's name also need not equal the week name:
the third conjunct shows 2025-06-22 winning as "Trinity 7" while the
week is named "Proper 7". -/
theorem c8_sunday_candidate (T : Tables) (y m d : Int) (tf : Option Rec) :
    (day_of_week y m d = 0 →
      ({ name := litSundayName y m d, prec := 5, typ := some "Sunday" } : Rec) ∈
        possiblesFor T y m d tf) ∧
    (day_of_week y m d ≠ 0 →
      possiblesFor T y m d tf = litBasePossibles T y m d tf) ∧
    (liturgical_calendar modelTables 2025 6 22 false).map
        (Option.map fun x => (x.name, x.week)) =
      .ok (some ("Trinity 7", some "Proper 7")) := by
  refine ⟨?_, ?_, rfl⟩
  · intro h0
    unfold possiblesFor litSundayName
    simp only [h0, if_pos]
    exact List.mem_append_right _ (List.mem_singleton.mpr rfl)
  · intro h0
    unfold possiblesFor litBasePossibles
    simp [h0]

/-- Witness for C8: the Sunday part at 2025-06-22 and the weekday part
at 2025-06-23. -/
theorem c8_sunday_candidate_witness :
    day_of_week 2025 6 22 = 0 ∧
    ({ name := litSundayName 2025 6 22, prec := 5, typ := some "Sunday" } : Rec) ∈
      possiblesFor modelTables 2025 6 22 none ∧
    day_of_week 2025 6 23 ≠ 0 ∧
    possiblesFor modelTables 2025 6 23 none = litBasePossibles modelTables 2025 6 23 none :=
  ⟨by decide, (c8_sunday_candidate modelTables 2025 6 22 none).1 (by decide),
    by decide, (c8_sunday_candidate modelTables 2025 6 23 none).2.1 (by decide)⟩

/-- Counterexample to C8 as stated: Easter Sunday 2025-04-20 carries
the precedence-9 Principal Feast, yet the implicit Sunday candidate
"Easter 1" is still added alongside it — the claim's "only if no
precedence-9 candidate already exists" gate does not exist in
`liturgical_calendar`. -/
theorem c8_counterexample :
    day_of_week 2025 4 20 = 0 ∧
    ({ name := "Easter", prec := 9 } : Rec) ∈
      possiblesFor modelTables 2025 4 20 (innerResult modelTables 2025 4 19) ∧
    ({ name := "Easter 1", prec := 5, typ := some "Sunday" } : Rec) ∈
      possiblesFor modelTables 2025 4 20 (innerResult modelTables 2025 4 19) ∧
    ({ name := "Easter", prec := 9 } : Rec).prec = 9 := by
  refine ⟨rfl, ?_, ?_, rfl⟩ <;> decide

/-- The day name is "Sunday" exactly when the day count is 6 mod 7. -/
theorem dayName_sunday_iff (n : Int) : dayName n = "Sunday" ↔ n % 7 = 6 := by
  have h : n % 7 = 0 ∨ n % 7 = 1 ∨ n % 7 = 2 ∨ n % 7 = 3 ∨ n % 7 = 4 ∨
      n % 7 = 5 ∨ n % 7 = 6 := by omega
  rcases h with h|h|h|h|h|h|h <;> simp [dayName, h]

/-- C5 (corrected): fed the week information the repository's own
tests use for 2024-12-30 (week and weekday reading "Christmas 1"),
`ReadingsManager.get_readings_for_date` returns the fixed-weekday
entry — but only because the weekday table has no "Christmas 1" entry.
In general the precedence is: Sunday table on Sundays via the week
name; on weekdays the week-based key (weekday reading, falling back
to the week name) whenever its weekday-table entry is non-empty, with
the fixed-date table only as fallback — a live week-based entry beats
the fixed-date entry, the reverse of the claimed precedence (see
`c5_counterexample`).  In the full pipeline `week_info` itself raises
the `render_week_name` arity `TypeError` on 2024-12-30 (Christmas
branch), so no key from it ever reaches the manager. -/
theorem c5_readings_precedence :
    get_readings_for_date modelTables 2024 12 30
        { name := "", prec := 1, week := some "Christmas 1",
          weekday_reading := some "Christmas 1" } =
      ["1 John 2:3-11", "John 21:19-25"] ∧
    modelTables.weekdayReadings "Christmas 1" (dayName (date_to_days 2024 12 30))
        (get_yearly_cycle 2024).2 = [] ∧
    week_info 2024 12 30 = .error renderArityError ∧
    (∀ (T : Tables) (y m d : Int) (info : Rec),
      get_readings_for_date T y m d info = specReadingsSelector T y m d info) := by
  refine ⟨rfl, rfl, rfl, ?_⟩
  intro T y m d info
  unfold get_readings_for_date specReadingsSelector
  by_cases hs : date_to_days y m d % 7 = 6
  · rw [if_pos hs, if_pos ((dayName_sunday_iff _).mpr hs)]
    cases hw : info.week with
    | none => rfl
    | some w =>
      dsimp only
      by_cases hw0 : w = "" <;> simp [hw0]
  · rw [if_neg hs, if_neg (fun hc => hs ((dayName_sunday_iff _).mp hc))]
    have hkey : (match info.weekday_reading with
        | some s => some s
        | none => info.week) = info.weekday_reading.orElse fun _ => info.week := by
      cases info.weekday_reading <;> rfl
    rw [hkey]
    cases hk : info.weekday_reading.orElse fun _ => info.week with
    | none => rfl
    | some w =>
      dsimp only
      by_cases hw0 : w = ""
      · simp [hw0]
      · by_cases hnil : T.weekdayReadings w (dayName (date_to_days y m d))
            (get_yearly_cycle y).2 = [] <;> simp [hw0, hnil]

/-- Counterexample to C5 as stated: 2024-01-08 is a weekday whose
month-day "01-08" is in the fixed-weekday table AND whose week
("Epiphany 1", the value the repository's own test
`test_epiphany1_precedence_over_fixed_weekday_readings` uses) has a
weekday-table entry — and the manager returns the week-based entry,
not the fixed-date one.  (`week_info` itself raises the
`render_week_name` arity `TypeError` on this date, in the Epiphany
branch.) -/
theorem c5_counterexample :
    get_readings_for_date modelTables 2024 1 8
        { name := "", prec := 1, week := some "Epiphany 1",
          weekday_reading := some "Epiphany 1" } =
      ["Epiphany 1 Monday Reading 1", "Epiphany 1 Monday Reading 2"] ∧
    modelTables.fixedWeekdayReadings (mmdd 1 8) (get_yearly_cycle 2024).2 =
      ["Fixed Jan 8 Reading 1", "Fixed Jan 8 Reading 2"] ∧
    day_of_week 2024 1 8 ≠ 0 ∧
    week_info 2024 1 8 = .error renderArityError :=
  ⟨rfl, rfl, by decide, rfl⟩

/-- The seven season branches that reach a three-argument
`render_week_name` call raise the arity `TypeError`. -/
theorem weekInfoBranch_raises (ss : String) (sep scp sadv : Int) (wsd : PyDate)
    (days year adv : Int)
    (h : ss ∈ ["Pre-Lent", "Advent", "Christmas", "Epiphany", "Lent", "Easter",
      "Ordinary Time"]) :
    weekInfoBranch ss sep scp sadv wsd days year adv = .error renderArityError := by
  simp only [List.mem_cons, List.not_mem_nil, or_false] at h
  rcases h with rfl|rfl|rfl|rfl|rfl|rfl|rfl <;> rfl

/-- `Except.map` yields an error exactly when its argument is that
error. -/
theorem except_map_error {α β : Type} (B : Except String α) (f : α → β) (e : String) :
    B.map f = .error e ↔ B = .error e := by
  cases B <;> simp [Except.map]

/-- `Except.map` yields a value exactly when its argument held its
preimage. -/
theorem except_map_ok {α β : Type} (B : Except String α) (f : α → β) (w : β) :
    B.map f = .ok w ↔ ∃ x, B = .ok x ∧ f x = w := by
  cases B <;> simp [Except.map]

/-- C4 (corrected): `week_info` raises the `render_week_name` arity
`TypeError` for every date whose week-start Sunday's season is one of
the seven render-calling seasons — and the season of every week-start
Sunday lying strictly between Ash Wednesday − 35 days and Ash
Wednesday is one of them (Pre-Lent, Christmas, Epiphany or Ordinary
Time; checked at the window dates 2025-02-17 in the witness and
2025-02-12 in `c4_counterexample`).  No "N before Lent" key is ever
produced: the override block at season_calculator.py lines 202-212 is
unreachable, while the repository's own unit tests assert its values
("3 before Lent" for 2025-02-17), which the code as it stands cannot
deliver. -/
theorem c4_pre_lent_override (y m d : Int)
    (h : determine_season (PyDate.ofDays (weekStartSundayOf y m d)) ∈
      ["Pre-Lent", "Advent", "Christmas", "Epiphany", "Lent", "Easter",
        "Ordinary Time"]) :
    week_info y m d = .error renderArityError := by
  unfold weekStartSundayOf at h
  unfold week_info
  simp only [PyDate.ofYMD]
  rw [weekInfoBranch_raises _ _ _ _ _ _ _ _ h]
  rfl

/-- Witness for C4 at 2025-02-17 (its week-start Sunday 2025-02-16 is
strictly inside the Pre-Lent window before Ash Wednesday, March 5,
with season "Ordinary Time"): the call raises. -/
theorem c4_pre_lent_override_witness :
    determine_season (PyDate.ofDays (weekStartSundayOf 2025 2 17)) ∈
      ["Pre-Lent", "Advent", "Christmas", "Epiphany", "Lent", "Easter",
        "Ordinary Time"] ∧
    ashWednesdayOf 2025 - 35 < weekStartSundayOf 2025 2 17 ∧
    weekStartSundayOf 2025 2 17 < ashWednesdayOf 2025 ∧
    week_info 2025 2 17 = .error renderArityError :=
  ⟨by decide, by decide, by decide, c4_pre_lent_override 2025 2 17 (by decide)⟩

/-- Counterexample to C4 as stated: 2025-02-12 is exactly 3 weeks
(21 days) before Ash Wednesday 2025 (March 5) and its week-start
Sunday lies strictly inside the claimed window, yet `week_info` does
not force any "N before Lent" key (let alone the claimed
"3 before Lent"): it raises the `render_week_name` arity `TypeError`
in the Ordinary Time branch before the override is reached. -/
theorem c4_counterexample :
    date_to_days 2025 2 12 = ashWednesdayOf 2025 - 21 ∧
    ashWednesdayOf 2025 - 35 < weekStartSundayOf 2025 2 12 ∧
    weekStartSundayOf 2025 2 12 < ashWednesdayOf 2025 ∧
    isFixedWeekdayDate 2 12 = false ∧
    week_info 2025 2 12 = .error renderArityError :=
  ⟨by decide, by decide, by decide, rfl, rfl⟩

/-- The per-season dispatch of `week_info` reads the queried date's
own day count only in its Pre-Advent branch; every other branch
depends only on the week-start Sunday's quantities. -/
theorem weekInfoBranch_days_irrel (ss : String) (sep scp sadv : Int) (wsd : PyDate)
    (days1 days2 year adv : Int) (h : ss ≠ "Pre-Advent") :
    weekInfoBranch ss sep scp sadv wsd days2 year adv =
      weekInfoBranch ss sep scp sadv wsd days1 year adv := by
  unfold weekInfoBranch
  by_cases h1 : ss = "Pre-Lent"
  · rw [if_pos h1, if_pos h1]
  rw [if_neg h1, if_neg h1]
  by_cases h2 : ss = "Advent"
  · rw [if_pos h2, if_pos h2]
  rw [if_neg h2, if_neg h2]
  by_cases h3 : ss = "Christmas"
  · rw [if_pos h3, if_pos h3]
  rw [if_neg h3, if_neg h3]
  by_cases h4 : ss = "Epiphany"
  · rw [if_pos h4, if_pos h4]
  rw [if_neg h4, if_neg h4]
  by_cases h5 : ss = "Lent"
  · rw [if_pos h5, if_pos h5]
  rw [if_neg h5, if_neg h5]
  by_cases h6 : ss = "Holy Week"
  · rw [if_pos h6, if_pos h6]
  rw [if_neg h6, if_neg h6]
  by_cases h7 : ss = "Easter"
  · rw [if_pos h7, if_pos h7]
  rw [if_neg h7, if_neg h7]
  by_cases h8 : ss = "Pentecost"
  · rw [if_pos h8, if_pos h8]
  rw [if_neg h8, if_neg h8]
  by_cases h9 : ss = "Trinity"
  · rw [if_pos h9, if_pos h9]
  rw [if_neg h9, if_neg h9, if_neg h, if_neg h]

/-- C6 (corrected): for a Sunday `(y,m1,d1)` and a weekday `i` days
later in the same calendar year, provided the Sunday's season is not
Pre-Advent: if `week_info` raises on the Sunday (the seven
render-calling seasons) it raises identically on the weekday, and if
it returns on the Sunday (Holy Week, Pentecost and Trinity weeks) it
returns on the weekday with the same `week_name` and — except on the
fixed Christmas/Epiphany dates, which suppress the key to `none` —
the same `weekday_reading_key`.  (Pre-Advent weeks genuinely violate
the claim — the "N before Advent" number is recomputed from the
queried date and drops by one from Monday on, see `c6_counterexample`
— and a week straddling December 31 computes the weekday's quantities
with the new year's Christmas and Easter, so the same-year proviso is
also necessary.) -/
theorem c6_week_coherence (y m1 d1 m2 d2 i : Int)
    (hv1 : validDate y m1 d1) (hv2 : validDate y m2 d2)
    (hdow : day_of_week y m1 d1 = 0)
    (hi1 : 1 ≤ i) (hi2 : i ≤ 6)
    (hstep : date_to_days y m2 d2 = date_to_days y m1 d1 + i)
    (hpa : determine_season (PyDate.ofDays (weekStartSundayOf y m1 d1)) ≠ "Pre-Advent") :
    (∀ e, week_info y m1 d1 = .error e → week_info y m2 d2 = .error e) ∧
    (∀ w1, week_info y m1 d1 = .ok w1 →
      ∃ w2, week_info y m2 d2 = .ok w2 ∧
        w2.week_name = w1.week_name ∧
        (isFixedWeekdayDate m2 d2 = true → w2.weekday_reading_key = none) ∧
        (isFixedWeekdayDate m2 d2 = false → isFixedWeekdayDate m1 d1 = false →
          w2.weekday_reading_key = w1.weekday_reading_key)) := by
  have h6 : date_to_days y m1 d1 % 7 = 6 := by
    simp only [day_of_week] at hdow
    split_ifs at hdow <;> omega
  have hdow2 : day_of_week y m2 d2 = i := by
    simp only [day_of_week, hstep]
    split_ifs with hc <;> omega
  have hwss : date_to_days y m2 d2 - day_of_week y m2 d2 =
      date_to_days y m1 d1 - day_of_week y m1 d1 := by
    rw [hstep, hdow2, hdow]; ring
  unfold weekStartSundayOf at hpa
  unfold week_info
  simp only [PyDate.ofYMD]
  rw [hwss, weekInfoBranch_days_irrel _ _ _ _ _
    (date_to_days y m1 d1) (date_to_days y m2 d2) _ _ hpa]
  constructor
  · intro e he
    rw [except_map_error] at he
    rw [except_map_error]
    exact he
  · intro w1 hw1
    rw [except_map_ok] at hw1
    obtain ⟨x, hBx, hfx⟩ := hw1
    refine ⟨_, (except_map_ok _ _ _).mpr ⟨x, hBx, rfl⟩, ?_, ?_, ?_⟩
    · rw [← hfx]; rfl
    · intro hf2
      unfold weekInfoAssemble
      simp [hf2]
    · intro hf2 hf1
      rw [← hfx]
      unfold weekInfoAssemble
      simp [hf2, hf1]

/-- Witness for C6: Trinity Sunday 2025-06-15 and the Tuesday two days
later; `week_info` returns on both and they agree on week name and
weekday reading key. -/
theorem c6_week_coherence_witness :
    validDate 2025 6 15 ∧ validDate 2025 6 17 ∧ day_of_week 2025 6 15 = 0 ∧
    (1 : Int) ≤ 2 ∧ (2 : Int) ≤ 6 ∧
    date_to_days 2025 6 17 = date_to_days 2025 6 15 + 2 ∧
    determine_season (PyDate.ofDays (weekStartSundayOf 2025 6 15)) ≠ "Pre-Advent" ∧
    (week_info 2025 6 17).map WeekInfo.week_name =
      (week_info 2025 6 15).map WeekInfo.week_name ∧
    ((∀ e, week_info 2025 6 15 = .error e → week_info 2025 6 17 = .error e) ∧
     (∀ w1, week_info 2025 6 15 = .ok w1 →
       ∃ w2, week_info 2025 6 17 = .ok w2 ∧
         w2.week_name = w1.week_name ∧
         (isFixedWeekdayDate 6 17 = true → w2.weekday_reading_key = none) ∧
         (isFixedWeekdayDate 6 17 = false → isFixedWeekdayDate 6 15 = false →
           w2.weekday_reading_key = w1.weekday_reading_key))) :=
  ⟨by decide, by decide, by decide, by decide, by decide, by decide, by decide, rfl,
    c6_week_coherence 2025 6 15 6 17 2 (by decide) (by decide) (by decide)
      (by decide) (by decide) (by decide) (by decide)⟩

/-- Counterexample to C6 as stated: in the Pre-Advent week opened by
Sunday 2025-11-09 (a week where `week_info` does return), the Monday
2025-11-10 (not a fixed date) reports week name and weekday reading
key "2 before Advent" while the Sunday reports "3 before Advent" —
both fields differ inside one week. -/
theorem c6_counterexample :
    day_of_week 2025 11 9 = 0 ∧
    date_to_days 2025 11 10 = date_to_days 2025 11 9 + 1 ∧
    isFixedWeekdayDate 11 10 = false ∧
    (week_info 2025 11 9).map WeekInfo.week_name = .ok "3 before Advent" ∧
    (week_info 2025 11 10).map WeekInfo.week_name = .ok "2 before Advent" ∧
    (week_info 2025 11 9).map WeekInfo.weekday_reading_key =
      .ok (some "3 before Advent") ∧
    (week_info 2025 11 10).map WeekInfo.weekday_reading_key =
      .ok (some "2 before Advent") :=
  ⟨by decide, by decide, rfl, rfl, rfl, rfl, rfl⟩

end LitCal
